import Mathlib

/-!
Verification of the connection ingestion / deduplication / geolocation
pipeline of the realtime-network-monitor repository.

The JavaScript sources are shallowly embedded:
* JS `Map` objects become association lists (`mapGet`, `mapSet`, `mapErase`),
  JS `Set` objects become duplicate-free lists (`listInsert`, `List.erase`);
* JSON leaf values become `JSVal` (number / string / null / undefined), with
  JS truthiness made explicit;
* machine time (`Date.now()`) is an explicit `Int` parameter;
* the HTTP fetch performed by `GeolocationService.fetchLocationData` is an
  oracle (`FetchOutcome`) supplied per attempt; fallible code returns
  `Except`.
All definitions are executable.
-/

namespace NetMon

/-! ## JS value model -/

/-- Model of a JSON/JS leaf value as it appears in API responses. -/
inductive JSVal where
  | num (q : Rat)
  | str (s : String)
  | jnull
  | undef
deriving DecidableEq, Repr

/-- JS truthiness of a `JSVal` (`0`, `""`, `null`, `undefined` are falsy). -/
def JSVal.truthy : JSVal → Bool
  | .num q => q != 0
  | .str s => s != ""
  | .jnull => false
  | .undef => false

/-- Model of the JS expression `x || d` for an optional object field `x`
(an absent field reads as `undefined`, hence falsy). -/
def jsOr (v : Option JSVal) (d : JSVal) : JSVal :=
  match v with
  | none => d
  | some x => if x.truthy then x else d

/-! ## JS Map / Set model

JS `Map` keeps one value per key (last write overwrites, insertion order
kept); JS `Set` holds each element once.  Keys here are strings. -/

/-- Model of `Map.prototype.get` (also of `Map.prototype.has` via `isSome`). -/
def mapGet {α : Type} : List (String × α) → String → Option α
  | [], _ => none
  | (k, v) :: rest, key => if k = key then some v else mapGet rest key

/-- Model of `Map.prototype.set`: overwrite the value in place, or append. -/
def mapSet {α : Type} : List (String × α) → String → α → List (String × α)
  | [], key, v => [(key, v)]
  | (k, w) :: rest, key, v =>
      if k = key then (k, v) :: rest else (k, w) :: mapSet rest key v

/-- Model of `Map.prototype.delete`. -/
def mapErase {α : Type} : List (String × α) → String → List (String × α)
  | [], _ => []
  | (k, w) :: rest, key =>
      if k = key then rest else (k, w) :: mapErase rest key

/-- Model of `Set.prototype.add`: append only when absent. -/
def listInsert (l : List String) (x : String) : List String :=
  if l.contains x then l else l ++ [x]

/-! ## GeolocationService: parseFloat model

`fetchLocationData` runs `parseFloat(data.lat) || 0` on the coordinates.
`parseFloatStr` models JS `parseFloat` on strings: skip leading whitespace,
optional sign, decimal digits with optional fraction and exponent, longest
valid prefix; no digits at all gives NaN (modelled as `none`).  The `|| 0`
coercion maps NaN (and 0 itself) to 0. -/

/-- Characters treated as leading whitespace by `parseFloat`. -/
def isJsSpace (c : Char) : Bool :=
  c = ' ' || c = '\t' || c = '\n' || c = '\r'

/-- Decimal value of a digit character. -/
def digitVal (c : Char) : Nat := c.toNat - 48

/-- Decimal value of a list of digit characters (model of `Number` /
`parseInt` on all-digit strings). -/
def parseNatDec (l : List Char) : Nat :=
  l.foldl (fun a c => a * 10 + digitVal c) 0

/-- Splits a char list into its longest digit-only prefix and the rest. -/
def spanDigits : List Char → List Char × List Char
  | [] => ([], [])
  | c :: rest =>
      if c.isDigit then
        let (d, r) := spanDigits rest
        (c :: d, r)
      else ([], c :: rest)

/-- Parses an optional exponent `[+|-]digits` after the `e`; a malformed
exponent is ignored (JS `parseFloat` stops before the `e`). -/
def parseExpChars (r : List Char) : Int :=
  let p : Int × List Char :=
    match r with
    | '-' :: t => (-1, t)
    | '+' :: t => (1, t)
    | _ => (1, r)
  let (eds, _) := spanDigits p.2
  if eds.isEmpty then 0 else p.1 * parseNatDec eds

/-- Model of JS `parseFloat` on the character list of a string. -/
def parseFloatStr (l : List Char) : Option Rat :=
  let l1 := l.dropWhile isJsSpace
  let sp : Rat × List Char :=
    match l1 with
    | '-' :: r => (-1, r)
    | '+' :: r => (1, r)
    | _ => (1, l1)
  let (ints, l3) := spanDigits sp.2
  let (fracs, l4) :=
    match l3 with
    | '.' :: r => spanDigits r
    | _ => ([], l3)
  if ints.isEmpty && fracs.isEmpty then
    none
  else
    let mantissa : Rat :=
      (parseNatDec ints : Rat) + (parseNatDec fracs : Rat) / (10 : Rat) ^ fracs.length
    let expo : Int :=
      match l4 with
      | 'e' :: r => parseExpChars r
      | 'E' :: r => parseExpChars r
      | _ => 0
    some (sp.1 * mantissa * (10 : Rat) ^ expo)

/-- Model of `parseFloat(v)` for a JS value: numbers round-trip through
their string form unchanged, strings are parsed, `null`/`undefined`
stringify to non-numeric text and give NaN. -/
def parseFloatJS : JSVal → Option Rat
  | .num q => some q
  | .str s => parseFloatStr s.data
  | .jnull => none
  | .undef => none

/-- Model of `parseFloat(x) || 0` on an optional field. -/
def parseFloatOr0 (v : Option JSVal) : Rat :=
  match v with
  | none => 0
  | some x =>
      match parseFloatJS x with
      | none => 0
      | some q => q

/-! ## GeolocationService: response validation and result construction
(src/services/GeolocationService.js) -/

/-- Fields of the JSON body returned by the geolocation API
(`GET http://ip-api.com/json/{ip}`); `none` is an absent field. -/
structure ApiData where
  status : Option JSVal := none
  country : Option JSVal := none
  countryCode : Option JSVal := none
  region : Option JSVal := none
  regionName : Option JSVal := none
  city : Option JSVal := none
  zip : Option JSVal := none
  lat : Option JSVal := none
  lon : Option JSVal := none
  timezone : Option JSVal := none
  isp : Option JSVal := none
  org : Option JSVal := none
  asn : Option JSVal := none
deriving DecidableEq, Repr

/-- Tests whether an optional field holds a JS number or string
(`typeof x === 'number' || typeof x === 'string'`). -/
def isNumOrStr : Option JSVal → Bool
  | some (.num _) => true
  | some (.str _) => true
  | _ => false

/-- Embedding of `GeolocationService.isValidLocationResponse` (lines
292-316): the `status` field must be present, and when `status` is the
string `success` both coordinates must be numbers or strings. -/
def isValidLocationResponse (d : ApiData) : Bool :=
  d.status.isSome &&
    (if d.status == some (JSVal.str "success") then
      isNumOrStr d.lat && isNumOrStr d.lon
    else true)

/-- Result object produced by the geolocation service (the shape built at
lines 261-277 on success and at lines 206-216 on terminal failure; a field
that the code leaves out of the object is `none`). -/
structure GeoResult where
  ip : String
  status : JSVal
  country : Option JSVal := none
  countryCode : Option JSVal := none
  region : Option JSVal := none
  regionName : Option JSVal := none
  city : Option JSVal := none
  zip : Option JSVal := none
  lat : Rat := 0
  lon : Rat := 0
  timezone : Option JSVal := none
  isp : Option JSVal := none
  org : Option JSVal := none
  asn : Option JSVal := none
  error : Option String := none
  timestamp : Int := 0
deriving DecidableEq, Repr

/-- Embedding of the success-path object literal of
`GeolocationService.fetchLocationData` (lines 261-277). -/
def buildLocationResult (ip : String) (d : ApiData) (now : Int) : GeoResult :=
  { ip := ip
    status := d.status.getD JSVal.undef
    country := some (jsOr d.country (.str "Unknown"))
    countryCode := some (jsOr d.countryCode (.str "XX"))
    region := some (jsOr d.region (.str ""))
    regionName := some (jsOr d.regionName (.str ""))
    city := some (jsOr d.city (.str "Unknown"))
    zip := some (jsOr d.zip (.str ""))
    lat := parseFloatOr0 d.lat
    lon := parseFloatOr0 d.lon
    timezone := some (jsOr d.timezone (.str ""))
    isp := some (jsOr d.isp (.str ""))
    org := some (jsOr d.org (.str ""))
    asn := some (jsOr d.asn (.str ""))
    error := none
    timestamp := now }

/-- Outcome of one HTTP attempt, supplied as an oracle: a transport error
(fetch rejected / timed out), a non-2xx response, or a JSON payload
(`none` models a body that is not an object). -/
inductive FetchOutcome where
  | transport (msg : String)
  | httpError (code : Nat) (statusText : String)
  | payload (d : Option ApiData)
deriving Repr

/-- Embedding of `GeolocationService.fetchLocationData` (lines 235-285):
non-ok responses and invalid payloads are thrown as errors (to trigger the
caller's retry logic), valid payloads are normalized via
`buildLocationResult`. -/
def fetchLocationData (ip : String) (o : FetchOutcome) (now : Int) :
    Except String GeoResult :=
  match o with
  | .transport msg => .error msg
  | .httpError code statusText =>
      .error ("HTTP " ++ toString code ++ ": " ++ statusText)
  | .payload none => .error "Invalid response format from geolocation API"
  | .payload (some d) =>
      if isValidLocationResponse d then
        .ok (buildLocationResult ip d now)
      else
        .error "Invalid response format from geolocation API"

/-- Terminal failure record built by `GeolocationService.processRequest`
(lines 206-216) once `maxRetries` is exhausted. -/
def failRecord (ip : String) (msg : String) (now : Int) : GeoResult :=
  { ip := ip
    status := .str "fail"
    country := some (.str "Unknown")
    countryCode := some (.str "XX")
    city := some (.str "Unknown")
    lat := 0
    lon := 0
    error := some msg
    timestamp := now }

/-- Geolocation cache: a JS `Map` from address to result. -/
abbrev GeoCache := List (String × GeoResult)

/-- Embedding of `GeolocationService.getCachedResult` (lines 123-138).
Returns the served value and the cache after the call (an expired entry is
deleted).  The `e.timestamp != 0` conjunct is the JS truthiness test
`cached.timestamp && ...`. -/
def getCachedResult (cache : GeoCache) (ip : String) (now : Int)
    (cacheDuration : Int) : Option GeoResult × GeoCache :=
  match mapGet cache ip with
  | none => (none, cache)
  | some e =>
      if e.timestamp != 0 && now - e.timestamp > cacheDuration then
        (none, mapErase cache ip)
      else
        (some e, cache)

/-! ## GeolocationService: retry loop of processRequest

`runLookupAux` follows one queued request through `processRequest`
(lines 172-228): each attempt calls `fetchLocationData`; a thrown error
with `retries < maxRetries` re-enqueues the request after a backoff of
`retryBaseDelay * 2 ^ (retries - 1)` milliseconds; exhausted retries
resolve with `failRecord`.  An `ok` result is resolved to the caller, and
cached only when its `status` is `success` (line 180).  Arguments:
`retriesLeft = maxRetries - retries` and `k = retries` so far; `outcomes`
and `times` give the fetch outcome and `Date.now()` of attempt `k`.
Returned: resolved value, number of attempts made, final cache, and the
list of scheduled backoff delays. -/
def runLookupAux (ip : String) (outcomes : Nat → FetchOutcome)
    (times : Nat → Int) (retryBaseDelay : Int) :
    Nat → Nat → GeoCache → GeoResult × Nat × GeoCache × List Int
  | retriesLeft, k, cache =>
    match fetchLocationData ip (outcomes k) (times k) with
    | .ok r =>
        if r.status == JSVal.str "success" then
          let cached := { r with timestamp := times k }
          (cached, k + 1, mapSet cache ip cached, [])
        else
          (r, k + 1, cache, [])
    | .error msg =>
        match retriesLeft with
        | rl + 1 =>
            let out := runLookupAux ip outcomes times retryBaseDelay rl (k + 1) cache
            (out.1, out.2.1, out.2.2.1, retryBaseDelay * 2 ^ k :: out.2.2.2)
        | 0 => (failRecord ip msg (times k), k + 1, cache, [])

/-- Resolution of one freshly queued request (`retries` starts at 0). -/
def runLookup (ip : String) (outcomes : Nat → FetchOutcome)
    (times : Nat → Int) (retryBaseDelay : Int) (maxRetries : Nat)
    (cache : GeoCache) : GeoResult × Nat × GeoCache × List Int :=
  runLookupAux ip outcomes times retryBaseDelay maxRetries 0 cache

/-! ## IPFilter (src/utils/IPFilter.js)

Addresses are handled as character lists (`String.data`).  The regex
`^(\d{1,3})\.(\d{1,3})\.(\d{1,3})\.(\d{1,3})$` of `isValidIP` is embedded
as: splitting on dots yields exactly four parts of one to three decimal
digits each. -/

/-- Splits a char list at every `'.'` (model of `String.prototype.split`
with separator `"."`). -/
def splitOnDot : List Char → List (List Char)
  | [] => [[]]
  | c :: rest =>
      if c = '.' then
        [] :: splitOnDot rest
      else
        match splitOnDot rest with
        | [] => [[c]]
        | h :: t => (c :: h) :: t

/-- Model of `String.prototype.startsWith`: does `l` begin with `p`?
(Defined by recursion on the candidate prefix.) -/
def startsWithL (l p : List Char) : Bool :=
  List.rec (motive := fun _ => List Char → Bool)
    (fun _ => true)
    (fun a _ps ih l =>
      match l with
      | [] => false
      | b :: ls => a == b && ih ls)
    p l

/-- Tests that a part is one to three decimal digits (one capture group of
the `isValidIP` regex). -/
def isOctetPart (p : List Char) : Bool :=
  decide (1 ≤ p.length) && decide (p.length ≤ 3) && p.all Char.isDigit

/-- Embedding of `IPFilter.isValidIP` (lines 16-37): the dotted-quad regex
match plus the 0-255 range check on each octet (`parseInt` on a digit part
is its decimal value, never negative). -/
def isValidIP (l : List Char) : Bool :=
  let parts := splitOnDot l
  parts.length == 4 && parts.all isOctetPart &&
    parts.all (fun p => parseNatDec p ≤ 255)

/-- The `CONFIG.IP_FILTER_RULES` prefix list (src/config.js lines 21-58). -/
def ipFilterRules : List (List Char) :=
  [("192.168.").data, ("10.").data,
   ("172.16.").data, ("172.17.").data, ("172.18.").data, ("172.19.").data,
   ("172.20.").data, ("172.21.").data, ("172.22.").data, ("172.23.").data,
   ("172.24.").data, ("172.25.").data, ("172.26.").data, ("172.27.").data,
   ("172.28.").data, ("172.29.").data, ("172.30.").data, ("172.31.").data,
   ("127.").data, ("169.254.").data,
   ("224.").data, ("225.").data, ("226.").data, ("227.").data,
   ("228.").data, ("229.").data, ("230.").data, ("231.").data,
   ("232.").data, ("233.").data, ("234.").data, ("235.").data,
   ("236.").data, ("237.").data, ("238.").data, ("239.").data]

/-- Embedding of `IPFilter.isPrivateIP` (lines 44-75): invalid input is
private; otherwise the `String.prototype.startsWith` loop over
`IP_FILTER_RULES`, then the octet-level checks on
`ip.split('.').map(Number)`. -/
def isPrivateIP (l : List Char) : Bool :=
  if !isValidIP l then
    true
  else if ipFilterRules.any (fun p => startsWithL l p) then
    true
  else
    match (splitOnDot l).map parseNatDec with
    | [a, b, _, d] =>
        if a == 172 && 16 ≤ b && b ≤ 31 then true
        else if d == 255 then true
        else if a == 0 || 240 ≤ a then true
        else false
    | _ => false

/-- String-level wrapper used by the TrafficMonitor embedding. -/
def isPrivateIPStr (ip : String) : Bool := isPrivateIP ip.data

/-! ## TrafficMonitor (src/services/TrafficMonitor.js) -/

/-- The deduplication state owned by a `TrafficMonitor` instance:
`connectionStates` and `ipLastSeen` map keys to `Date.now()` values, and
`processedIPs` is a `Set` of addresses. -/
structure TMState where
  connectionStates : List (String × Int)
  ipLastSeen : List (String × Int)
  processedIPs : List String
  connectionCacheTimeout : Int
  ipCacheTimeout : Int
deriving Repr

/-- Connection record produced by `parseLsofLine` / `parseNettopLine`. -/
structure ConnData where
  processName : String
  sourceIP : String
  sourcePort : Nat
  destIP : String
  destPort : Nat
  timestamp : Int
deriving DecidableEq, Repr

/-- The dedup key built in `parseConnectionData` (line 283):
`process:src:sport->dst:dport`. -/
def mkConnectionKey (cd : ConnData) : String :=
  cd.processName ++ ":" ++ cd.sourceIP ++ ":" ++ toString cd.sourcePort ++
    "->" ++ cd.destIP ++ ":" ++ toString cd.destPort

/-- Embedding of `TrafficMonitor.isNewConnection` (lines 473-489).  Each
`x && ...` truthiness guard on a stored `Date.now()` value becomes
`t != 0`. -/
def isNewConnection (s : TMState) (connectionKey destIP : String)
    (now : Int) : Bool :=
  let connCheck :=
    match mapGet s.connectionStates connectionKey with
    | some t => t != 0 && now - t < s.connectionCacheTimeout
    | none => false
  if connCheck then
    false
  else
    let ipCheck :=
      match mapGet s.ipLastSeen destIP with
      | some t => t != 0 && now - t < s.ipCacheTimeout
      | none => false
    if ipCheck then false else true

/-- State-passing form of `isNewConnection`: the method only issues
`Map.prototype.get` reads, which leave the receiver untouched, so the
returned state is the input state. -/
def isNewConnectionM (s : TMState) (connectionKey destIP : String)
    (now : Int) : Bool × TMState :=
  (isNewConnection s connectionKey destIP now, s)

/-- Embedding of `TrafficMonitor.updateConnectionState` (lines 520-531). -/
def updateConnectionState (s : TMState) (connectionKey destIP : String)
    (now : Int) : TMState :=
  { s with
    connectionStates := mapSet s.connectionStates connectionKey now
    ipLastSeen := mapSet s.ipLastSeen destIP now
    processedIPs := listInsert s.processedIPs destIP }

/-- Embedding of the loop body of `TrafficMonitor.parseConnectionData`
(lines 281-307) for one successfully parsed connection in snapshot (lsof)
mode.  Returns the tracker state, the `currentConnections` set, and the
list of `traffic` events emitted for this connection (empty or a
singleton).  Note the key is added to `currentConnections` before the
private-address filter runs. -/
def processConnection (s : TMState) (currentConnections : List String)
    (cd : ConnData) (now : Int) : TMState × List String × List ConnData :=
  let connectionKey := mkConnectionKey cd
  let current' := listInsert currentConnections connectionKey
  if isPrivateIPStr cd.destIP then
    (s, current', [])
  else if isNewConnection s connectionKey cd.destIP now then
    (updateConnectionState s connectionKey cd.destIP now, current', [cd])
  else
    (s, current', [])

/-- Embedding of the server-side `traffic` handler
(`handleTrafficEvent` in agent.js): each emitted event triggers one
`GeolocationService.getLocation(destIP)`, whose only immediate cache
effect is the `getCachedResult` read.  Used to express that a dropped
connection never reaches the geolocation cache. -/
def geoTargetsOfEvents (events : List ConnData) : List String :=
  events.map (fun cd => cd.destIP)

/-- The immediate geolocation-cache effect of handling a batch of emitted
`traffic` events: each event's `getLocation` starts with the
`getCachedResult` read (which may evict an expired entry); no other cache
access happens before the network round trip. -/
def geoCacheAfterEvents (gc : GeoCache) (events : List ConnData)
    (now cacheDuration : Int) : GeoCache :=
  events.foldl (fun c cd => (getCachedResult c cd.destIP now cacheDuration).2) gc

/-! ## GeolocationService: queue, concurrency cap and rate limiting

A small trace semantics for `getLocation` / `processQueue` /
`processRequest` (lines 93-228).  `activeRequests` is a JS `Set` of
addresses, as in the source; `inFlight` and `httpCalls` are observation
counters: `inFlight` counts dispatched-but-uncompleted fetches and
`httpCalls` counts all fetches issued. -/

/-- A queued request (`{ip, resolve, reject, retries, timestamp}`). -/
structure ReqItem where
  ip : String
  retries : Nat
  timestamp : Int
deriving DecidableEq, Repr

/-- State of a `GeolocationService` instance, with observation counters. -/
structure GeoState where
  cache : GeoCache
  requestQueue : List ReqItem
  activeRequests : List String
  maxConcurrentRequests : Nat
  cacheDuration : Int
  inFlight : Nat
  httpCalls : Nat
deriving Repr

/-- A fresh service instance with the given configuration. -/
def initGeoState (maxConcurrentRequests : Nat) (cacheDuration : Int) :
    GeoState :=
  { cache := [], requestQueue := [], activeRequests := [],
    maxConcurrentRequests := maxConcurrentRequests,
    cacheDuration := cacheDuration, inFlight := 0, httpCalls := 0 }

/-- Embedding of `GeolocationService.getLocation` (lines 93-116): serve
from the cache when `getCachedResult` hits, otherwise push a request with
`retries: 0` onto the queue.  Returns the new state and the value served
synchronously from the cache (if any). -/
def callStep (s : GeoState) (ip : String) (now : Int) :
    GeoState × Option GeoResult :=
  match getCachedResult s.cache ip now s.cacheDuration with
  | (some r, cache') => ({ s with cache := cache' }, some r)
  | (none, cache') =>
      ({ s with cache := cache',
                requestQueue := s.requestQueue ++ [⟨ip, 0, now⟩] }, none)

/-- Embedding of one iteration of the `processQueue` while loop (lines
150-163) together with the synchronous start of `processRequest` (line
173): when the queue is non-empty and `activeRequests.size` is below
`maxConcurrentRequests`, the head request is shifted and its fetch is
issued, adding its address to the `activeRequests` set. -/
def dispatchStep (s : GeoState) : GeoState :=
  match s.requestQueue with
  | [] => s
  | req :: rest =>
      if s.activeRequests.length < s.maxConcurrentRequests then
        { s with requestQueue := rest,
                 activeRequests := listInsert s.activeRequests req.ip,
                 inFlight := s.inFlight + 1,
                 httpCalls := s.httpCalls + 1 }
      else s

/-- Embedding of the completion path of `processRequest` for a fetch that
resolved with `r` (lines 177-188 and the `finally` at line 221): cache the
result only when its status is `success` (stamping it with the current
time), then remove the address from `activeRequests`. -/
def completeOkStep (s : GeoState) (r : GeoResult) (now : Int) : GeoState :=
  let s1 :=
    if r.status == JSVal.str "success" then
      { s with cache := mapSet s.cache r.ip { r with timestamp := now } }
    else s
  { s1 with activeRequests := s1.activeRequests.erase r.ip,
            inFlight := s1.inFlight - 1 }

/-- Events of the trace semantics. -/
inductive GeoEv where
  | call (ip : String) (now : Int)
  | dispatch
  | completeOk (r : GeoResult) (now : Int)

/-- One step of the trace semantics. -/
def geoStep (s : GeoState) : GeoEv → GeoState
  | .call ip now => (callStep s ip now).1
  | .dispatch => dispatchStep s
  | .completeOk r now => completeOkStep s r now

/-- A run of the service over a list of events. -/
def geoRun (s : GeoState) (evs : List GeoEv) : GeoState :=
  evs.foldl geoStep s

/-! ## Further TrafficMonitor operations (context for the frame claims) -/

/-- Embedding of `TrafficMonitor.cleanupStaleConnections` (lines 537-553):
keep exactly the connection states whose key is still in the current
capture cycle. -/
def cleanupStaleConnections (s : TMState) (currentConnections : List String) :
    TMState :=
  { s with connectionStates :=
      s.connectionStates.filter (fun kv => currentConnections.contains kv.1) }

/-- Embedding of `TrafficMonitor.cleanupExpiredEntries` (lines 558-583):
drop connection states and address entries past their timeouts; an address
leaves `processedIPs` exactly when its `ipLastSeen` entry expires. -/
def cleanupExpiredEntries (s : TMState) (now : Int) : TMState :=
  { s with
    connectionStates :=
      s.connectionStates.filter (fun kv => !(now - kv.2 > s.connectionCacheTimeout))
    ipLastSeen :=
      s.ipLastSeen.filter (fun kv => !(now - kv.2 > s.ipCacheTimeout))
    processedIPs :=
      s.processedIPs.filter (fun ip =>
        match mapGet s.ipLastSeen ip with
        | some t => !(now - t > s.ipCacheTimeout)
        | none => true) }

/-! ## Canonical dotted-quad rendering (for the address classification
claim)

`renderOctet` renders an octet value in canonical decimal (no leading
zeros); `canonIP` renders a full address.  `specPrivateClass` is the
class-membership predicate as the specification words it. -/

/-- Decimal digit character for a value at most 9. -/
def digitChar (n : Nat) : Char :=
  if n = 0 then '0' else if n = 1 then '1' else if n = 2 then '2'
  else if n = 3 then '3' else if n = 4 then '4' else if n = 5 then '5'
  else if n = 6 then '6' else if n = 7 then '7' else if n = 8 then '8'
  else '9'

/-- Canonical decimal rendering of an octet value (valid for `n ≤ 999`). -/
def renderOctet (n : Nat) : List Char :=
  if n < 10 then [digitChar n]
  else if n < 100 then [digitChar (n / 10), digitChar (n % 10)]
  else [digitChar (n / 100), digitChar (n / 10 % 10), digitChar (n % 10)]

/-- Canonical rendering of a dotted-quad address from octet values. -/
def canonIP (a b c d : Nat) : List Char :=
  renderOctet a ++ '.' :: (renderOctet b ++ '.' :: (renderOctet c ++ '.' :: renderOctet d))

/-- Modelled from the spec: membership of an address (given by octet
values) in the private/reserved classes the specification enumerates —
loopback `127.*`, link-local `169.254.*`, RFC 1918 (`10.*`,
`172.16.*`-`172.31.*`, `192.168.*`), multicast `224.*`-`239.*`, broadcast
last octet `255`, reserved first octet `0` or at least `240`. -/
def specPrivateClass (a b _c d : Nat) : Bool :=
  a == 127 || (a == 169 && b == 254) || a == 10 ||
    (a == 172 && (decide (16 ≤ b) && decide (b ≤ 31))) ||
    (a == 192 && b == 168) || (decide (224 ≤ a) && decide (a ≤ 239)) ||
    d == 255 || a == 0 || decide (240 ≤ a)

/-! ## Concrete sample data for witnesses -/

/-- A successful geolocation result for `8.8.8.8`. -/
def sampleResult : GeoResult :=
  { ip := "8.8.8.8", status := .str "success",
    country := some (.str "United States"), city := some (.str "Ashburn"),
    lat := 39, lon := -77, timestamp := 0 }

/-- An API payload whose latitude is a non-numeric string (it still passes
`isValidLocationResponse`) and whose optional fields are absent. -/
def sampleApiData : ApiData :=
  { status := some (.str "success"), lat := some (.str "abc"),
    lon := some (.num 5) }

/-! ## Supporting lemmas about the map model -/

/-- A key outside the key list of a map is looked up as `none`. -/
theorem mapGet_eq_none_of_not_mem {α : Type} (m : List (String × α))
    (k : String) (h : k ∉ m.map Prod.fst) : mapGet m k = none := by
  induction m with
  | nil => rfl
  | cons kv rest ih =>
      obtain ⟨k1, v1⟩ := kv
      simp only [List.map_cons, List.mem_cons, not_or] at h
      simp only [mapGet]
      rw [if_neg (fun hk => h.1 hk.symm)]
      exact ih h.2

/-- Deleting a key from a duplicate-free map makes its lookup `none`. -/
theorem mapGet_mapErase_self {α : Type} (m : List (String × α)) (k : String)
    (h : (m.map Prod.fst).Nodup) : mapGet (mapErase m k) k = none := by
  induction m with
  | nil => rfl
  | cons kv rest ih =>
      obtain ⟨k1, v1⟩ := kv
      simp only [List.map_cons, List.nodup_cons] at h
      by_cases hk : k1 = k
      · simp only [mapErase, if_pos hk]
        exact mapGet_eq_none_of_not_mem rest k (hk ▸ h.1)
      · simp only [mapErase, if_neg hk, mapGet, if_neg hk]
        exact ih h.2

/-! ## Claim theorems -/

/-- C9: `isNewConnection` is read-only — it leaves the connection-state
map, the address-last-seen map and the processed-IP set unchanged; in the
snapshot processing loop, tracker state changes only through
`updateConnectionState` (and only for an emitted connection). -/
theorem isNewConnection_readonly (s : TMState) (key destIP : String)
    (now : Int) (current : List String) (cd : ConnData) :
    (isNewConnectionM s key destIP now).2.connectionStates = s.connectionStates ∧
    (isNewConnectionM s key destIP now).2.ipLastSeen = s.ipLastSeen ∧
    (isNewConnectionM s key destIP now).2.processedIPs = s.processedIPs ∧
    ((processConnection s current cd now).1 = s ∨
      (processConnection s current cd now).1 =
        updateConnectionState s (mkConnectionKey cd) cd.destIP now) := by
  refine ⟨rfl, rfl, rfl, ?_⟩
  unfold processConnection
  by_cases hp : isPrivateIPStr cd.destIP
  · simp [hp]
  · by_cases hn : isNewConnection s (mkConnectionKey cd) cd.destIP now
    · simp [hp, hn]
    · simp [hp, hn]

/-- C8: a parsed connection with a private destination is dropped before
the dedup and geolocation stages: the tracker maps are untouched, no
`traffic` event is emitted, hence no geolocation lookup is triggered and
the geolocation cache is untouched. -/
theorem processConnection_private_dropped (s : TMState)
    (current : List String) (cd : ConnData) (now : Int)
    (h : isPrivateIPStr cd.destIP = true) :
    processConnection s current cd now =
      (s, listInsert current (mkConnectionKey cd), []) ∧
    geoTargetsOfEvents (processConnection s current cd now).2.2 = [] ∧
    (∀ gc : GeoCache, ∀ gnow gdur : Int,
      geoCacheAfterEvents gc (processConnection s current cd now).2.2 gnow gdur = gc) := by
  have hmain : processConnection s current cd now =
      (s, listInsert current (mkConnectionKey cd), []) := by
    unfold processConnection
    simp [h]
  refine ⟨hmain, ?_, ?_⟩
  · rw [hmain]; rfl
  · intro gc gnow gdur; rw [hmain]; rfl

/-- C8 witness: a connection to the RFC 1918 address `192.168.1.100`. -/
theorem processConnection_private_dropped_witness :
    isPrivateIPStr "192.168.1.100" = true ∧
    processConnection ⟨[], [], [], 5000, 10000⟩ []
        ⟨"Chrome", "192.168.1.5", 12345, "192.168.1.100", 443, 7⟩ 7 =
      (⟨[], [], [], 5000, 10000⟩,
        listInsert []
          (mkConnectionKey ⟨"Chrome", "192.168.1.5", 12345, "192.168.1.100", 443, 7⟩),
        []) :=
  ⟨by decide,
    (processConnection_private_dropped ⟨[], [], [], 5000, 10000⟩ []
      ⟨"Chrome", "192.168.1.5", 12345, "192.168.1.100", 443, 7⟩ 7 (by decide)).1⟩

/-- C2: `isNewConnection(K, D)` returns false exactly when the
connection-state map holds an entry for `K` seen within
`connectionCacheTimeout` of now, or the address-last-seen map holds an
entry for `D` seen within `ipCacheTimeout` of now (the address-level
suppression applies even when the connection key is absent or stale); in
every other state it returns true.  The hypotheses record that stored
times are nonzero (they are always `Date.now()` values). -/
theorem isNewConnection_false_iff (s : TMState) (key destIP : String)
    (now : Int)
    (hc : ∀ t, mapGet s.connectionStates key = some t → t ≠ 0)
    (hi : ∀ t, mapGet s.ipLastSeen destIP = some t → t ≠ 0) :
    isNewConnection s key destIP now = false ↔
      ((∃ t, mapGet s.connectionStates key = some t ∧
          now - t < s.connectionCacheTimeout) ∨
       (∃ t, mapGet s.ipLastSeen destIP = some t ∧
          now - t < s.ipCacheTimeout)) := by
  unfold isNewConnection
  cases hcs : mapGet s.connectionStates key with
  | none =>
      cases his : mapGet s.ipLastSeen destIP with
      | none => simp
      | some t => simp [hi t his]
  | some t =>
      cases his : mapGet s.ipLastSeen destIP with
      | none => simp [hc t hcs]
      | some u =>
          simp [hc t hcs, hi u his]
          omega

/-- C2 witness: a state whose connection entry for the key is stale but
whose address entry is fresh, so the lookup is suppressed at the address
level. -/
theorem isNewConnection_false_iff_witness :
    isNewConnection ⟨[("k", 100)], [("d", 7000)], [], 5000, 10000⟩ "k" "d" 9000 = false ↔
      ((∃ t, mapGet [("k", (100 : Int))] "k" = some t ∧ 9000 - t < 5000) ∨
       (∃ t, mapGet [("d", (7000 : Int))] "d" = some t ∧ 9000 - t < 10000)) :=
  isNewConnection_false_iff ⟨[("k", 100)], [("d", 7000)], [], 5000, 10000⟩ "k" "d" 9000
    (by intro t ht; simp [mapGet] at ht; omega)
    (by intro t ht; simp [mapGet] at ht; omega)

/-- C3: an entry served by `getCachedResult` has age at most
`cacheDuration`; an entry past `cacheDuration` is deleted from the cache
and `null` is returned, so an expired entry is never served.  Hypotheses:
the entry's timestamp is nonzero (always a `Date.now()` value) and the
cache, being a JS `Map`, has no duplicate keys. -/
theorem getCachedResult_age_bound (cache : GeoCache) (ip : String)
    (now cacheDuration : Int) (e : GeoResult)
    (he : mapGet cache ip = some e) (hts : e.timestamp ≠ 0)
    (hnd : (cache.map Prod.fst).Nodup) :
    (∀ r, (getCachedResult cache ip now cacheDuration).1 = some r →
        now - r.timestamp ≤ cacheDuration) ∧
    (now - e.timestamp > cacheDuration →
        getCachedResult cache ip now cacheDuration = (none, mapErase cache ip) ∧
        mapGet (mapErase cache ip) ip = none) := by
  simp only [getCachedResult, he]
  by_cases hexp : now - e.timestamp > cacheDuration
  · have hcond : (e.timestamp != 0 && decide (now - e.timestamp > cacheDuration)) = true := by
      simp [hts, hexp]
    rw [if_pos hcond]
    exact ⟨fun r hr => by simp at hr,
      fun _ => ⟨rfl, mapGet_mapErase_self cache ip hnd⟩⟩
  · have hcond : (e.timestamp != 0 && decide (now - e.timestamp > cacheDuration)) = false := by
      simp [hexp]
    rw [if_neg (by simp [hcond])]
    refine ⟨fun r hr => ?_, fun h => absurd h hexp⟩
    simp at hr
    cases hr
    omega

/-- C3 witness: a 25-hour-old entry with the 24-hour `cacheDuration` is
evicted rather than served. -/
theorem getCachedResult_age_bound_witness :
    mapGet [("1.2.3.4", { sampleResult with timestamp := 50 })] "1.2.3.4" =
      some { sampleResult with timestamp := 50 } ∧
    ((∀ r, (getCachedResult [("1.2.3.4", { sampleResult with timestamp := 50 })]
        "1.2.3.4" 90000050 86400000).1 = some r → 90000050 - r.timestamp ≤ 86400000) ∧
     (90000050 - (50 : Int) > 86400000 →
        getCachedResult [("1.2.3.4", { sampleResult with timestamp := 50 })]
            "1.2.3.4" 90000050 86400000 =
          (none, mapErase [("1.2.3.4", { sampleResult with timestamp := 50 })] "1.2.3.4") ∧
        mapGet (mapErase [("1.2.3.4", { sampleResult with timestamp := 50 })] "1.2.3.4")
          "1.2.3.4" = none)) :=
  ⟨rfl,
    getCachedResult_age_bound [("1.2.3.4", { sampleResult with timestamp := 50 })]
      "1.2.3.4" 90000050 86400000 { sampleResult with timestamp := 50 }
      rfl (by decide) (by simp)⟩

/-- Shifting lemma for the backoff-delay schedule. -/
theorem range_pow_shift (base : Int) (k n : Nat) :
    (List.range (n + 1)).map (fun i => base * 2 ^ (k + i)) =
      base * 2 ^ k :: (List.range n).map (fun i => base * 2 ^ (k + 1 + i)) := by
  rw [List.range_succ_eq_map]
  simp only [List.map_cons, List.map_map, Nat.add_zero]
  refine congrArg₂ _ rfl (List.map_congr_left fun i _ => ?_)
  simp only [Function.comp]
  rw [show k + (i + 1) = k + 1 + i from by omega]

/-- Behaviour of the retry loop when every attempt throws: it walks all
remaining retries with doubling backoff and ends in the terminal failure
record, leaving the cache alone. -/
theorem runLookupAux_allFail (ip : String) (outcomes : Nat → FetchOutcome)
    (times : Nat → Int) (base : Int) (errs : Nat → String)
    (h : ∀ j, fetchLocationData ip (outcomes j) (times j) = .error (errs j)) :
    ∀ rl k cache, runLookupAux ip outcomes times base rl k cache =
      (failRecord ip (errs (k + rl)) (times (k + rl)), k + rl + 1, cache,
        (List.range rl).map (fun i => base * 2 ^ (k + i))) := by
  intro rl
  induction rl with
  | zero =>
      intro k cache
      unfold runLookupAux
      rw [h k]
      simp
  | succ n ih =>
      intro k cache
      unfold runLookupAux
      rw [h k]
      simp only [ih (k + 1) cache]
      rw [range_pow_shift]
      have e1 : k + 1 + n = k + (n + 1) := by omega
      rw [e1]

/-- C1: when every upstream attempt for an address fails, the lookup makes
exactly `maxRetries + 1` fetch attempts (one initial plus `maxRetries`
retries, with backoff delays `retryBaseDelay * 2 ^ (retryCount - 1)`,
i.e. base, 2*base, 4*base, ...) and then resolves — the embedding is a
total function, never a rejection — with the terminal failure record
`{status: 'fail', error: message, lat: 0, lon: 0, ...}`. -/
theorem getLocation_allFail (ip : String) (outcomes : Nat → FetchOutcome)
    (times : Nat → Int) (base : Int) (maxRetries : Nat) (cache : GeoCache)
    (errs : Nat → String)
    (h : ∀ j, fetchLocationData ip (outcomes j) (times j) = .error (errs j)) :
    runLookup ip outcomes times base maxRetries cache =
      (failRecord ip (errs maxRetries) (times maxRetries), maxRetries + 1, cache,
        (List.range maxRetries).map (fun i => base * 2 ^ i)) ∧
    (failRecord ip (errs maxRetries) (times maxRetries)).status = .str "fail" ∧
    (failRecord ip (errs maxRetries) (times maxRetries)).error =
      some (errs maxRetries) ∧
    (failRecord ip (errs maxRetries) (times maxRetries)).lat = 0 ∧
    (failRecord ip (errs maxRetries) (times maxRetries)).lon = 0 := by
  refine ⟨?_, rfl, rfl, rfl, rfl⟩
  have hm := runLookupAux_allFail ip outcomes times base errs h maxRetries 0 cache
  simpa using hm

/-- C1 witness: four attempts for `maxRetries = 3`, with backoff delays
1000, 2000, 4000. -/
theorem getLocation_allFail_witness :
    runLookup "8.8.8.8" (fun _ => .transport "timeout") (fun _ => 1000) 1000 3 [] =
      (failRecord "8.8.8.8" "timeout" 1000, 3 + 1, [],
        (List.range 3).map (fun i => 1000 * 2 ^ i)) ∧
    (failRecord "8.8.8.8" "timeout" 1000).status = .str "fail" ∧
    (failRecord "8.8.8.8" "timeout" 1000).error = some "timeout" ∧
    (failRecord "8.8.8.8" "timeout" 1000).lat = 0 ∧
    (failRecord "8.8.8.8" "timeout" 1000).lon = 0 :=
  getLocation_allFail "8.8.8.8" (fun _ => .transport "timeout") (fun _ => 1000)
    1000 3 [] (fun _ => "timeout") (fun _ => rfl)

/-- C6 counterexample: after a terminal failure for `1.2.3.4` the cache is
still empty — no `{status: 'fail'}` entry is created, contradicting the
claim that terminal failures are cached. -/
theorem terminalFailure_not_cached_cex :
    ((runLookup "1.2.3.4" (fun _ => .transport "timeout") (fun _ => 1000)
        1000 3 []).1).status = .str "fail" ∧
    (runLookup "1.2.3.4" (fun _ => .transport "timeout") (fun _ => 1000)
        1000 3 []).2.2.1 = [] ∧
    mapGet (runLookup "1.2.3.4" (fun _ => .transport "timeout") (fun _ => 1000)
        1000 3 []).2.2.1 "1.2.3.4" = none :=
  ⟨rfl, rfl, rfl⟩

/-- C6 (amended): a cache entry is written only on a `success` resolution;
after a terminal failure the cache is unchanged, so the next lookup for
that address misses the cache and goes back to the network. -/
theorem terminalFailure_not_cached (ip : String) (outcomes : Nat → FetchOutcome)
    (times : Nat → Int) (base : Int) (maxRetries : Nat) (cache : GeoCache)
    (errs : Nat → String) (now dur : Int)
    (h : ∀ j, fetchLocationData ip (outcomes j) (times j) = .error (errs j))
    (h0 : mapGet cache ip = none) :
    (runLookup ip outcomes times base maxRetries cache).2.2.1 = cache ∧
    ((runLookup ip outcomes times base maxRetries cache).1).status = .str "fail" ∧
    getCachedResult cache ip now dur = (none, cache) := by
  have hm := runLookupAux_allFail ip outcomes times base errs h maxRetries 0 cache
  refine ⟨?_, ?_, ?_⟩
  · rw [runLookup, hm]
  · rw [runLookup, hm]; rfl
  · simp [getCachedResult, h0]

/-- C6 (amended) witness: all four attempts fail, the cache stays empty
and the follow-up lookup misses. -/
theorem terminalFailure_not_cached_witness :
    (runLookup "1.2.3.4" (fun _ => .transport "timeout") (fun _ => 1000)
        1000 3 []).2.2.1 = [] ∧
    ((runLookup "1.2.3.4" (fun _ => .transport "timeout") (fun _ => 1000)
        1000 3 []).1).status = .str "fail" ∧
    getCachedResult [] "1.2.3.4" 2000 86400000 = (none, []) :=
  terminalFailure_not_cached "1.2.3.4" (fun _ => .transport "timeout")
    (fun _ => 1000) 1000 3 [] (fun _ => "timeout") 2000 86400000
    (fun _ => rfl) rfl

/-- C5 counterexample: two `getLocation("8.8.8.8")` calls at the same
instant (well within `cacheDuration`), both arriving before the first
resolution completes, each enqueue a request and each is dispatched: two
upstream HTTP calls are issued for a valid public address. -/
theorem duplicate_resolve_two_calls_cex :
    (geoRun (initGeoState 5 86400000)
        [.call "8.8.8.8" 5, .call "8.8.8.8" 5, .dispatch, .dispatch]).httpCalls = 2 ∧
    isPrivateIPStr "8.8.8.8" = false :=
  ⟨rfl, by decide⟩

/-- C5 (amended): the single-upstream-call guarantee holds when the first
resolution completes with a `success` status before the second call: the
second `getLocation` is then served from the cache, leaves the whole
service state (queue, counters) unchanged, and issues no further HTTP
call. -/
theorem resolve_cached_after_success (ip : String) (r : GeoResult)
    (t1 t2 t3 : Int) (mx : Nat) (dur : Int)
    (hmx : 0 < mx) (hip : r.ip = ip) (hst : r.status = .str "success")
    (hfresh : t3 - t2 ≤ dur) :
    (geoRun (initGeoState mx dur)
        [.call ip t1, .dispatch, .completeOk r t2]).httpCalls = 1 ∧
    callStep (geoRun (initGeoState mx dur)
        [.call ip t1, .dispatch, .completeOk r t2]) ip t3 =
      (geoRun (initGeoState mx dur) [.call ip t1, .dispatch, .completeOk r t2],
        some { r with timestamp := t2 }) := by
  have hs1 : geoRun (initGeoState mx dur)
      [.call ip t1, .dispatch, .completeOk r t2] =
      { cache := [(ip, { r with timestamp := t2 })], requestQueue := [],
        activeRequests := [], maxConcurrentRequests := mx,
        cacheDuration := dur, inFlight := 0, httpCalls := 1 } := by
    simp [geoRun, geoStep, callStep, dispatchStep, completeOkStep,
      initGeoState, getCachedResult, mapGet, mapSet, listInsert, hmx, hip, hst]
  rw [hs1]
  refine ⟨rfl, ?_⟩
  have hnotexp : ¬ t3 - t2 > dur := by omega
  simp [callStep, getCachedResult, mapGet, hnotexp]

/-- C5 (amended) witness: a concrete successful first resolution followed
by a cache-served second call. -/
theorem resolve_cached_after_success_witness :
    (geoRun (initGeoState 5 86400000)
        [.call "8.8.8.8" 1, .dispatch, .completeOk sampleResult 10]).httpCalls = 1 ∧
    callStep (geoRun (initGeoState 5 86400000)
        [.call "8.8.8.8" 1, .dispatch, .completeOk sampleResult 10]) "8.8.8.8" 20 =
      (geoRun (initGeoState 5 86400000)
          [.call "8.8.8.8" 1, .dispatch, .completeOk sampleResult 10],
        some { sampleResult with timestamp := 10 }) :=
  resolve_cached_after_success "8.8.8.8" sampleResult 1 10 20 5 86400000
    (by decide) rfl rfl (by decide)

/-- C10: every result with status `success` returned by
`fetchLocationData` (hence every success result handed to callers or
written to the cache) carries numeric coordinates: a number passes
through, a numeric string is parsed, a coordinate that fails to parse
(possible, since `isValidLocationResponse` admits any string) is coerced
to 0; absent optional fields get the fixed defaults (`Unknown`, `XX`,
`Unknown`, empty strings). -/
theorem fetchLocationData_success_shape (ip : String) (o : FetchOutcome)
    (now : Int) (r : GeoResult)
    (hok : fetchLocationData ip o now = .ok r)
    (hs : r.status = .str "success") :
    ∃ d, o = .payload (some d) ∧ isValidLocationResponse d = true ∧
      d.status = some (.str "success") ∧
      r.lat = parseFloatOr0 d.lat ∧ r.lon = parseFloatOr0 d.lon ∧
      (∀ v, d.lat = some v → parseFloatJS v = none → r.lat = 0) ∧
      (∀ v q, d.lat = some v → parseFloatJS v = some q → r.lat = q) ∧
      (∀ v, d.lon = some v → parseFloatJS v = none → r.lon = 0) ∧
      (∀ v q, d.lon = some v → parseFloatJS v = some q → r.lon = q) ∧
      (d.country = none → r.country = some (.str "Unknown")) ∧
      (d.countryCode = none → r.countryCode = some (.str "XX")) ∧
      (d.city = none → r.city = some (.str "Unknown")) ∧
      (d.region = none → r.region = some (.str "")) ∧
      (d.regionName = none → r.regionName = some (.str "")) ∧
      (d.zip = none → r.zip = some (.str "")) ∧
      (d.timezone = none → r.timezone = some (.str "")) ∧
      (d.isp = none → r.isp = some (.str "")) ∧
      (d.org = none → r.org = some (.str "")) ∧
      (d.asn = none → r.asn = some (.str "")) := by
  cases o with
  | transport m => simp [fetchLocationData] at hok
  | httpError c t => simp [fetchLocationData] at hok
  | payload d =>
      cases d with
      | none => simp [fetchLocationData] at hok
      | some data =>
          by_cases hv : isValidLocationResponse data = true
          · simp only [fetchLocationData, if_pos hv, Except.ok.injEq] at hok
            subst hok
            have hstat : data.status = some (.str "success") := by
              cases hds : data.status with
              | none => rw [buildLocationResult, hds] at hs; exact absurd hs (by simp)
              | some v => rw [buildLocationResult, hds] at hs; simp at hs; rw [hs]
            refine ⟨data, rfl, hv, hstat, rfl, rfl, ?_, ?_, ?_, ?_, ?_, ?_, ?_, ?_, ?_, ?_, ?_, ?_, ?_, ?_⟩
            · intro v hv1 hn; simp [buildLocationResult, hv1, parseFloatOr0, hn]
            · intro v q hv1 hq; simp [buildLocationResult, hv1, parseFloatOr0, hq]
            · intro v hv1 hn; simp [buildLocationResult, hv1, parseFloatOr0, hn]
            · intro v q hv1 hq; simp [buildLocationResult, hv1, parseFloatOr0, hq]
            · intro hc; simp [buildLocationResult, hc, jsOr]
            · intro hc; simp [buildLocationResult, hc, jsOr]
            · intro hc; simp [buildLocationResult, hc, jsOr]
            · intro hc; simp [buildLocationResult, hc, jsOr]
            · intro hc; simp [buildLocationResult, hc, jsOr]
            · intro hc; simp [buildLocationResult, hc, jsOr]
            · intro hc; simp [buildLocationResult, hc, jsOr]
            · intro hc; simp [buildLocationResult, hc, jsOr]
            · intro hc; simp [buildLocationResult, hc, jsOr]
            · intro hc; simp [buildLocationResult, hc, jsOr]
          · simp [fetchLocationData, hv] at hok

/-- C10 witness: a payload whose latitude is the non-numeric string `abc`
(valid per `isValidLocationResponse`) yields latitude 0, the numeric
longitude 5 passes through, and the absent country defaults to
`Unknown`. -/
theorem fetchLocationData_success_shape_witness :
    fetchLocationData "8.8.8.8" (.payload (some sampleApiData)) 42 =
      .ok (buildLocationResult "8.8.8.8" sampleApiData 42) ∧
    (buildLocationResult "8.8.8.8" sampleApiData 42).lat = 0 ∧
    (buildLocationResult "8.8.8.8" sampleApiData 42).lon = 5 ∧
    (buildLocationResult "8.8.8.8" sampleApiData 42).country = some (.str "Unknown") ∧
    (∃ d, FetchOutcome.payload (some sampleApiData) = .payload (some d) ∧
      isValidLocationResponse d = true ∧
      d.status = some (.str "success") ∧
      (buildLocationResult "8.8.8.8" sampleApiData 42).lat = parseFloatOr0 d.lat ∧
      (buildLocationResult "8.8.8.8" sampleApiData 42).lon = parseFloatOr0 d.lon ∧
      (∀ v, d.lat = some v → parseFloatJS v = none →
        (buildLocationResult "8.8.8.8" sampleApiData 42).lat = 0) ∧
      (∀ v q, d.lat = some v → parseFloatJS v = some q →
        (buildLocationResult "8.8.8.8" sampleApiData 42).lat = q) ∧
      (∀ v, d.lon = some v → parseFloatJS v = none →
        (buildLocationResult "8.8.8.8" sampleApiData 42).lon = 0) ∧
      (∀ v q, d.lon = some v → parseFloatJS v = some q →
        (buildLocationResult "8.8.8.8" sampleApiData 42).lon = q) ∧
      (d.country = none →
        (buildLocationResult "8.8.8.8" sampleApiData 42).country = some (.str "Unknown")) ∧
      (d.countryCode = none →
        (buildLocationResult "8.8.8.8" sampleApiData 42).countryCode = some (.str "XX")) ∧
      (d.city = none →
        (buildLocationResult "8.8.8.8" sampleApiData 42).city = some (.str "Unknown")) ∧
      (d.region = none →
        (buildLocationResult "8.8.8.8" sampleApiData 42).region = some (.str "")) ∧
      (d.regionName = none →
        (buildLocationResult "8.8.8.8" sampleApiData 42).regionName = some (.str "")) ∧
      (d.zip = none →
        (buildLocationResult "8.8.8.8" sampleApiData 42).zip = some (.str "")) ∧
      (d.timezone = none →
        (buildLocationResult "8.8.8.8" sampleApiData 42).timezone = some (.str "")) ∧
      (d.isp = none →
        (buildLocationResult "8.8.8.8" sampleApiData 42).isp = some (.str "")) ∧
      (d.org = none →
        (buildLocationResult "8.8.8.8" sampleApiData 42).org = some (.str "")) ∧
      (d.asn = none →
        (buildLocationResult "8.8.8.8" sampleApiData 42).asn = some (.str ""))) :=
  ⟨rfl, by decide, by decide, by decide,
    fetchLocationData_success_shape "8.8.8.8" (.payload (some sampleApiData)) 42
      (buildLocationResult "8.8.8.8" sampleApiData 42) rfl (by decide)⟩

/-! ## Lemmas on canonical octet rendering and dot-splitting -/

/-- A digit character is never the dot separator. -/
theorem digitChar_ne_dot (n : Nat) : digitChar n ≠ '.' := by
  unfold digitChar
  split_ifs <;> decide

/-- Digit characters satisfy the `Char.isDigit` test. -/
theorem digitChar_isDigit (n : Nat) : (digitChar n).isDigit = true := by
  unfold digitChar
  split_ifs <;> decide

/-- Decimal value of a digit character, below 10. -/
theorem digitVal_digitChar (n : Nat) (h : n ≤ 9) :
    digitVal (digitChar n) = n := by
  unfold digitChar
  split_ifs with h0 h1 h2 h3 h4 h5 h6 h7 h8
  · subst h0; decide
  · subst h1; decide
  · subst h2; decide
  · subst h3; decide
  · subst h4; decide
  · subst h5; decide
  · subst h6; decide
  · subst h7; decide
  · subst h8; decide
  · have h9 : n = 9 := by omega
    subst h9; decide

/-- The canonical octet rendering contains no dot. -/
theorem renderOctet_ne_dot (n : Nat) : '.' ∉ renderOctet n := by
  unfold renderOctet
  split_ifs
  · intro hmem
    simp only [List.mem_singleton] at hmem
    exact digitChar_ne_dot _ hmem.symm
  · intro hmem
    simp only [List.mem_cons, List.not_mem_nil, or_false] at hmem
    rcases hmem with h | h <;> exact digitChar_ne_dot _ h.symm
  · intro hmem
    simp only [List.mem_cons, List.not_mem_nil, or_false] at hmem
    rcases hmem with h | h | h <;> exact digitChar_ne_dot _ h.symm

/-- The canonical octet rendering is all digits. -/
theorem renderOctet_all_digits (n : Nat) :
    (renderOctet n).all Char.isDigit = true := by
  unfold renderOctet
  split_ifs <;> simp [digitChar_isDigit]

/-- The canonical octet rendering has one to three characters. -/
theorem renderOctet_length (n : Nat) :
    1 ≤ (renderOctet n).length ∧ (renderOctet n).length ≤ 3 := by
  unfold renderOctet
  split_ifs <;> simp

/-- Parsing inverts the canonical octet rendering (for octet-sized
values). -/
theorem parseNatDec_renderOctet (n : Nat) (h : n ≤ 999) :
    parseNatDec (renderOctet n) = n := by
  unfold renderOctet parseNatDec
  split_ifs with h1 h2
  · simp [digitVal_digitChar n (by omega)]
  · have e1 : n / 10 ≤ 9 := by omega
    have e2 : n % 10 ≤ 9 := by omega
    simp [digitVal_digitChar _ e1, digitVal_digitChar _ e2]
    omega
  · have e1 : n / 100 ≤ 9 := by omega
    have e2 : n / 10 % 10 ≤ 9 := by omega
    have e3 : n % 10 ≤ 9 := by omega
    simp [digitVal_digitChar _ e1, digitVal_digitChar _ e2, digitVal_digitChar _ e3]
    omega

/-- Splitting a dot-free chunk yields the chunk alone. -/
theorem splitOnDot_no_dot (xs : List Char) (h : '.' ∉ xs) :
    splitOnDot xs = [xs] := by
  induction xs with
  | nil => rfl
  | cons c rest ih =>
      simp only [List.mem_cons, not_or] at h
      have hrec := ih h.2
      conv_lhs => rw [splitOnDot]
      rw [if_neg (fun hc => h.1 hc.symm), hrec]

/-- Splitting peels off a leading dot-free chunk. -/
theorem splitOnDot_append (xs rest : List Char) (h : '.' ∉ xs) :
    splitOnDot (xs ++ '.' :: rest) = xs :: splitOnDot rest := by
  induction xs with
  | nil =>
      simp only [List.nil_append]
      conv_lhs => rw [splitOnDot]
      rw [if_pos rfl]
  | cons c t ih =>
      simp only [List.mem_cons, not_or] at h
      have hrec := ih h.2
      simp only [List.cons_append]
      conv_lhs => rw [splitOnDot]
      rw [if_neg (fun hc => h.1 hc.symm), hrec]

/-- Splitting a canonical address recovers the four octet renderings. -/
theorem splitOnDot_canonIP (a b c d : Nat) :
    splitOnDot (canonIP a b c d) =
      [renderOctet a, renderOctet b, renderOctet c, renderOctet d] := by
  unfold canonIP
  rw [splitOnDot_append _ _ (renderOctet_ne_dot a),
    splitOnDot_append _ _ (renderOctet_ne_dot b),
    splitOnDot_append _ _ (renderOctet_ne_dot c),
    splitOnDot_no_dot _ (renderOctet_ne_dot d)]

/-- A canonical address with octets at most 255 passes `isValidIP`. -/
theorem isValidIP_canonIP (a b c d : Nat)
    (ha : a ≤ 255) (hb : b ≤ 255) (hc : c ≤ 255) (hd : d ≤ 255) :
    isValidIP (canonIP a b c d) = true := by
  unfold isValidIP isOctetPart
  rw [splitOnDot_canonIP]
  simp [renderOctet_all_digits, (renderOctet_length a).1, (renderOctet_length a).2,
    (renderOctet_length b).1, (renderOctet_length b).2,
    (renderOctet_length c).1, (renderOctet_length c).2,
    (renderOctet_length d).1, (renderOctet_length d).2,
    parseNatDec_renderOctet a (by omega), parseNatDec_renderOctet b (by omega),
    parseNatDec_renderOctet c (by omega), parseNatDec_renderOctet d (by omega),
    ha, hb, hc, hd]

/-- Two booleans agree when they are equi-true. -/
theorem bool_eq_of_iff (x y : Bool) (h : x = true ↔ y = true) : x = y := by
  cases x <;> cases y <;> simp_all

/-- C7 counterexample: `010.1.2.3` is well-formed per `isValidIP` (each
octet value is in 0-255) and lies in the RFC 1918 block `10.*` by octet
value, yet `isPrivateIP` returns false — the string-prefix rules and the
octet checks both miss the non-canonical leading-zero spelling. -/
theorem isPrivateIP_leading_zero_cex :
    isValidIP ("010.1.2.3").data = true ∧
    (splitOnDot ("010.1.2.3").data).map parseNatDec = [10, 1, 2, 3] ∧
    specPrivateClass 10 1 2 3 = true ∧
    isPrivateIP ("010.1.2.3").data = false := by decide

set_option maxHeartbeats 4000000 in
/-- C7 (amended): `isPrivateIP` returns true for every input that is not a
well-formed dotted-quad address (an unparseable address is conservatively
treated as private); and on canonically rendered well-formed addresses
(each octet written in decimal without leading zeros, values 0-255) it
agrees exactly with the specification's class list: loopback, link-local,
RFC 1918, multicast, broadcast last octet, reserved first octet; every
other canonical well-formed address is public.  (A well-formed but
non-canonical leading-zero spelling can evade the classification, per the
counterexample.) -/
theorem isPrivateIP_classification (a b c d : Nat)
    (ha : a ≤ 255) (hb : b ≤ 255) (hc : c ≤ 255) (hd : d ≤ 255) :
    (∀ l : List Char, isValidIP l = false → isPrivateIP l = true) ∧
    isPrivateIP (canonIP a b c d) = specPrivateClass a b c d := by
  refine ⟨fun l hl => by simp [isPrivateIP, hl], ?_⟩
  have hvalid := isValidIP_canonIP a b c d ha hb hc hd
  have hsplit : (splitOnDot (canonIP a b c d)).map parseNatDec = [a, b, c, d] := by
    rw [splitOnDot_canonIP]
    simp [parseNatDec_renderOctet a (by omega), parseNatDec_renderOctet b (by omega),
      parseNatDec_renderOctet c (by omega), parseNatDec_renderOctet d (by omega)]
  have hany : (ipFilterRules.any fun p => startsWithL (canonIP a b c d) p) =
      (a == 127 || (a == 169 && b == 254) || a == 10 ||
       (a == 172 && (decide (16 ≤ b) && decide (b ≤ 31))) ||
       (a == 192 && b == 168) || (decide (224 ≤ a) && decide (a ≤ 239))) := by
    interval_cases a <;> first
      | rfl
      | (interval_cases b <;> rfl)
  unfold isPrivateIP
  rw [hvalid, hany, hsplit]
  simp only [Bool.not_true, Bool.false_eq_true, if_false]
  apply bool_eq_of_iff
  split_ifs with h1 h2 h3 h4 <;>
    simp only [specPrivateClass, Bool.or_eq_true, Bool.and_eq_true, beq_iff_eq,
      decide_eq_true_eq] at * <;>
    tauto

/-- C7 (amended) witness: the non-well-formed input `256.1.1.1` is
classified private, and the canonical address `10.0.0.1` is classified
exactly as the specification class list says. -/
theorem isPrivateIP_classification_witness :
    (10 : Nat) ≤ 255 ∧ (0 : Nat) ≤ 255 ∧ (1 : Nat) ≤ 255 ∧
    isValidIP ("256.1.1.1").data = false ∧
    isPrivateIP ("256.1.1.1").data = true ∧
    isPrivateIP (canonIP 10 0 0 1) = specPrivateClass 10 0 0 1 :=
  ⟨by decide, by decide, by decide, by decide,
    (isPrivateIP_classification 10 0 0 1 (by decide) (by decide) (by decide)
        (by decide)).1 ("256.1.1.1").data (by decide),
    (isPrivateIP_classification 10 0 0 1 (by decide) (by decide) (by decide)
        (by decide)).2⟩

end NetMon
